import Mathlib

/-!
Shallow embedding of the cryptboot-rs mount/unmount/reset lifecycle core
(src/main.rs, src/command.rs, src/boot.rs).

External effects are modelled by an environment `Env`:
* `Env.stat` models filesystem metadata queries (`fs::metadata`, `PathBuf::is_dir`),
  returning either a file type or a stat error (not found, permission denied, ...).
* `Env.run` models the Command Runner: given the history of commands already
  executed (the trace) and the command about to be executed, it yields the
  command's exit success (`true` = zero exit code). Per the spec's external
  interface, the core relies only on zero vs non-zero exit status.

Every primitive that executes an external command appends that command to the
trace, so the trace records exactly which external effects the program
performed and in which order. Fallible operations return `Except Err α`
together with the updated trace.
-/

inductive FileType
  | blockDevice
  | dir
  | other
deriving DecidableEq

inductive StatError
  | notFound
  | permissionDenied
  | other
deriving DecidableEq

/-- `Device` from src/main.rs: a block-device reference by path, by partition
UUID, or by device-mapper name. -/
inductive Device
  | Path (p : String)
  | PartUuid (u : String)
  | Mapper (s : String)
deriving DecidableEq

/-- `Device::full_path` from src/main.rs. -/
def Device.full_path : Device → String
  | .Path p => p
  | .PartUuid u => "/dev/disk/by-partuuid/" ++ u
  | .Mapper s => "/dev/mapper/" ++ s

/-- `FileType::is_block_device` of `std::os::unix::fs::FileTypeExt`. -/
def FileType.is_block_device : FileType → Bool
  | .blockDevice => true
  | _ => false

/-- `Device::is_valid` from src/main.rs: stat the resolved path; `Ok(m)` yields
`m.file_type().is_block_device()`, every other outcome yields `false`. -/
def Device.is_valid (stat : String → Except StatError FileType) (d : Device) : Bool :=
  match stat d.full_path with
  | .ok m => m.is_block_device
  | _ => false

/-- `PathBuf::is_dir`: metadata succeeded and reports a directory. -/
def is_dir (stat : String → Except StatError FileType) (p : String) : Bool :=
  match stat p with
  | .ok FileType.dir => true
  | _ => false

/-- One external command invocation: program, argument list, and whether its
stdout/stderr were redirected to null (`Stdio::null`, the `silent` mode of
`cryptsetup_close`). -/
structure Cmd where
  program : String
  args : List String
  silent : Bool
deriving DecidableEq

abbrev Trace := List Cmd

/-- The environment supplying the outcomes of all external effects. -/
structure Env where
  stat : String → Except StatError FileType
  run : Trace → Cmd → Bool

/-- The error kinds surfaced by the mount primitives (src/command.rs builds
them as `anyhow!` messages; the spec names them `InvalidDevice`,
`InvalidMountpoint`, `CommandFailed`). -/
inductive Err
  | invalidDevice (d : Device)
  | invalidMountpoint (p : String)
  | commandFailed (c : Cmd)
deriving DecidableEq

/-- Execute one external command: record it in the trace and ask the
environment for its exit status. -/
def runCmd (env : Env) (c : Cmd) (tr : Trace) : Bool × Trace :=
  (env.run tr c, tr ++ [c])

/-- `cryptsetup_open` from src/command.rs: reject an invalid device before
running anything, then run `cryptsetup open <path> <name>` and fail on
non-zero exit. -/
def command.cryptsetup_open (env : Env) (dev : Device) (name : String) (tr : Trace) :
    Except Err Unit × Trace :=
  if !(dev.is_valid env.stat) then (.error (.invalidDevice dev), tr)
  else
    let c : Cmd := ⟨"cryptsetup", ["open", dev.full_path, name], false⟩
    let (ok, tr1) := runCmd env c tr
    if ok then (.ok (), tr1) else (.error (.commandFailed c), tr1)

/-- `cryptsetup_close` from src/command.rs: run `cryptsetup close <name>`,
with output silenced when `silent` is set, and fail on non-zero exit. -/
def command.cryptsetup_close (env : Env) (name : String) (silent : Bool) (tr : Trace) :
    Except Err Unit × Trace :=
  let c : Cmd := ⟨"cryptsetup", ["close", name], silent⟩
  let (ok, tr1) := runCmd env c tr
  if ok then (.ok (), tr1) else (.error (.commandFailed c), tr1)

/-- `mount` from src/command.rs: reject an invalid device, then a mountpoint
that is not an existing directory, then run `mount <path> <mountpoint>` and
fail on non-zero exit. -/
def command.mount (env : Env) (dev : Device) (mountpoint : String) (tr : Trace) :
    Except Err Unit × Trace :=
  if !(dev.is_valid env.stat) then (.error (.invalidDevice dev), tr)
  else if !(is_dir env.stat mountpoint) then (.error (.invalidMountpoint mountpoint), tr)
  else
    let c : Cmd := ⟨"mount", [dev.full_path, mountpoint], false⟩
    let (ok, tr1) := runCmd env c tr
    if ok then (.ok (), tr1) else (.error (.commandFailed c), tr1)

/-- `umount` from src/command.rs: run `umount <args..> <mountpoint>` with no
pre-validation and fail on non-zero exit. -/
def command.umount (env : Env) (mountpoint : String) (args : List String) (tr : Trace) :
    Except Err Unit × Trace :=
  let c : Cmd := ⟨"umount", args ++ [mountpoint], false⟩
  let (ok, tr1) := runCmd env c tr
  if ok then (.ok (), tr1) else (.error (.commandFailed c), tr1)

/-- `Efi` from src/boot.rs: EFI device and its mountpoint. -/
structure Efi where
  device : String
  mountpoint : String
deriving DecidableEq

/-- `boot::Config` from src/boot.rs: the LUKS device containing boot, the boot
mountpoint, and the nested EFI configuration. -/
structure Boot.Config where
  device : String
  mountpoint : String
  efi : Efi
deriving DecidableEq

/-- `BOOT_MAPPER_NAME` from src/boot.rs. -/
def BOOT_MAPPER_NAME : String := "cryptboot-boot"

/-- `EncryptedBoot` from src/boot.rs. -/
structure EncryptedBoot where
  config : Boot.Config
  name : String
  umount_on_drop : Bool
deriving DecidableEq

/-- `EncryptedBoot::from_config` from src/boot.rs: fixed mapper name,
automatic release disabled. -/
def EncryptedBoot.from_config (config : Boot.Config) : EncryptedBoot :=
  ⟨config, BOOT_MAPPER_NAME, false⟩

/-- The builder `EncryptedBoot::umount_on_drop` from src/boot.rs (renamed here
because the structure field projection already carries that name): enable
automatic release on scope exit. -/
def EncryptedBoot.with_umount_on_drop (self : EncryptedBoot) : EncryptedBoot :=
  { self with umount_on_drop := true }

/-- `Efi::mount` from src/boot.rs. -/
def Efi.mount (env : Env) (e : Efi) (tr : Trace) : Except Err Unit × Trace :=
  command.mount env (Device.Path e.device) e.mountpoint tr

/-- `Efi::umount` from src/boot.rs. -/
def Efi.umount (env : Env) (e : Efi) (args : List String) (tr : Trace) :
    Except Err Unit × Trace :=
  command.umount env e.mountpoint args tr

/-- `EncryptedBoot::mount` from src/boot.rs: unlock the encrypted partition,
mount the decrypted mapper device at the boot mountpoint, mount EFI; `?`
propagates the first failure. -/
def EncryptedBoot.mount (env : Env) (self : EncryptedBoot) (tr : Trace) :
    Except Err Unit × Trace :=
  match command.cryptsetup_open env (Device.Path self.config.device) BOOT_MAPPER_NAME tr with
  | (.error e, tr1) => (.error e, tr1)
  | (.ok _, tr1) =>
    match command.mount env (Device.Mapper self.name) self.config.mountpoint tr1 with
    | (.error e, tr2) => (.error e, tr2)
    | (.ok _, tr2) =>
      match self.config.efi.mount env tr2 with
      | (.error e, tr3) => (.error e, tr3)
      | (.ok _, tr3) => (.ok (), tr3)

/-- `EncryptedBoot::umount` from src/boot.rs: EFI unmount with no flags and
its result discarded (`let _ = ...`), then recursive boot unmount (`-R`,
propagated by `?`), then `cryptsetup close` (not silent, propagated). -/
def EncryptedBoot.umount (env : Env) (self : EncryptedBoot) (tr : Trace) :
    Except Err Unit × Trace :=
  let tr1 := (self.config.efi.umount env [] tr).2
  match command.umount env self.config.mountpoint ["-R"] tr1 with
  | (.error e, tr2) => (.error e, tr2)
  | (.ok _, tr2) => command.cryptsetup_close env BOOT_MAPPER_NAME false tr2

/-- `EncryptedBoot::reset` from src/boot.rs: EFI unmount with `-qR`, boot
unmount with `-qR`, silent `cryptsetup close`; every result is discarded
(`let _ = ...`) and the function returns no error. -/
def EncryptedBoot.reset (env : Env) (self : EncryptedBoot) (tr : Trace) : Trace :=
  let tr1 := (self.config.efi.umount env ["-qR"] tr).2
  let tr2 := (command.umount env self.config.mountpoint ["-qR"] tr1).2
  (command.cryptsetup_close env BOOT_MAPPER_NAME true tr2).2

/-- Outcome of running the drop glue: either normal completion or a panic
(the `unwrap()` in `impl Drop for EncryptedBoot` aborting on an unmount
error). Both record the final trace of external commands. -/
inductive DropOutcome
  | ok (tr : Trace)
  | panicked (tr : Trace)
deriving DecidableEq

/-- `impl Drop for EncryptedBoot` from src/boot.rs: when `umount_on_drop` is
set, run `umount` and `unwrap()` its result (panicking on error); otherwise do
nothing. -/
def EncryptedBoot.drop (env : Env) (self : EncryptedBoot) (tr : Trace) : DropOutcome :=
  if self.umount_on_drop then
    match EncryptedBoot.umount env self tr with
    | (.ok _, tr1) => .ok tr1
    | (.error _, tr1) => .panicked tr1
  else .ok tr

/-- Rust scope-exit semantics (drop glue) for a scope owning an
`EncryptedBoot`: the body runs first and may end in a normal value or an
early error return (its `Except` result); in either case, control then leaves
the scope and `EncryptedBoot.drop` runs exactly once on the trace the body
left behind. -/
def withScope {α : Type} (env : Env) (self : EncryptedBoot)
    (body : Trace → Except Err α × Trace) (tr : Trace) : Except Err α × DropOutcome :=
  let (res, tr1) := body tr
  (res, EncryptedBoot.drop env self tr1)

/-- `grub::Config` from src/grub.rs (carried inside the top-level `Config`;
not consumed by the lifecycle core). -/
structure Grub.Config where
  target : String
  bootloader_id : String
  add_modules : List String
deriving DecidableEq

/-- The top-level `Config` from src/main.rs. -/
structure Main.Config where
  boot : Boot.Config
  grub : Grub.Config
deriving DecidableEq

/-- `Cryptboot` from src/main.rs: a newtype around the top-level `Config`. -/
structure Cryptboot where
  config : Main.Config
deriving DecidableEq

/-- `Cryptboot::mount` from src/main.rs: build an `EncryptedBoot` from the
boot configuration, call `reset()`, then `mount()?`, returning the manager on
success. (The manager has `umount_on_drop = false` here, so the drop of `m`
on the error path runs no teardown.) -/
def Cryptboot.mount (env : Env) (self : Cryptboot) (tr : Trace) :
    Except Err EncryptedBoot × Trace :=
  let m := EncryptedBoot.from_config self.config.boot
  let tr1 := EncryptedBoot.reset env m tr
  match EncryptedBoot.mount env m tr1 with
  | (.error e, tr2) => (.error e, tr2)
  | (.ok _, tr2) => (.ok m, tr2)

/-! Abbreviations for the concrete external commands the lifecycle manager
issues, as they appear in the recorded traces. -/

/-- The `cryptsetup open` command issued by step 1 of `EncryptedBoot.mount`. -/
def openCmd (self : EncryptedBoot) : Cmd :=
  ⟨"cryptsetup", ["open", (Device.Path self.config.device).full_path, BOOT_MAPPER_NAME], false⟩

/-- The `mount` command issued by step 2 of `EncryptedBoot.mount` (decrypted
mapper device onto the boot mountpoint). -/
def bootMountCmd (self : EncryptedBoot) : Cmd :=
  ⟨"mount", [(Device.Mapper self.name).full_path, self.config.mountpoint], false⟩

/-- The `mount` command issued by step 3 of `EncryptedBoot.mount` (EFI device
onto the EFI mountpoint). -/
def efiMountCmd (self : EncryptedBoot) : Cmd :=
  ⟨"mount", [(Device.Path self.config.efi.device).full_path, self.config.efi.mountpoint], false⟩

/-- The `umount` command on the EFI mountpoint with the given flag arguments. -/
def efiUmountCmd (self : EncryptedBoot) (args : List String) : Cmd :=
  ⟨"umount", args ++ [self.config.efi.mountpoint], false⟩

/-- The `umount` command on the boot mountpoint with the given flag arguments. -/
def bootUmountCmd (self : EncryptedBoot) (args : List String) : Cmd :=
  ⟨"umount", args ++ [self.config.mountpoint], false⟩

/-- The `cryptsetup close` command on the fixed mapper name. -/
def closeCmd (silent : Bool) : Cmd :=
  ⟨"cryptsetup", ["close", BOOT_MAPPER_NAME], silent⟩

/-- Steps 2–3 of `EncryptedBoot.umount` in isolation: the recursive boot
unmount followed (only on its success) by the non-silent mapper release. Used
to state that a failing EFI unmount leaves the rest of `umount` unchanged. -/
def bootUmountThenClose (env : Env) (self : EncryptedBoot) (tr : Trace) :
    Except Err Unit × Trace :=
  match command.umount env self.config.mountpoint ["-R"] tr with
  | (.error e, tr2) => (.error e, tr2)
  | (.ok _, tr2) => command.cryptsetup_close env BOOT_MAPPER_NAME false tr2

/-- The three commands `EncryptedBoot.reset` issues, in order. -/
def resetCmds (self : EncryptedBoot) : Trace :=
  [efiUmountCmd self ["-qR"], bootUmountCmd self ["-qR"], closeCmd true]

/-- The final trace recorded by a drop outcome, whether or not it panicked. -/
def DropOutcome.trace : DropOutcome → Trace
  | .ok tr => tr
  | .panicked tr => tr

/-- An argument is a flag argument when it starts with a dash. -/
def isFlagArg (a : String) : Bool :=
  match a.data with
  | c :: _ => c == '-'
  | _ => false

/-- The argument list carries the single-letter flag `fl` when some flag
argument (dash-prefixed) contains that letter, as in `["-qR"]` carrying both
`q` and `R`. -/
def argsHaveFlag (args : List String) (fl : Char) : Bool :=
  args.any (fun a => isFlagArg a && a.data.contains fl)

/-! Concrete fixtures used by the closed witnesses and counterexamples. -/

/-- A stat oracle for a standard setup: `/dev/sda1`, `/dev/sda2` and the
decrypted mapper device are block devices, `/boot` and `/boot/efi` are
directories, everything else does not exist. -/
def statStd : String → Except StatError FileType := fun p =>
  if p = "/dev/sda2" then .ok .blockDevice
  else if p = "/dev/sda1" then .ok .blockDevice
  else if p = "/dev/mapper/cryptboot-boot" then .ok .blockDevice
  else if p = "/boot" then .ok .dir
  else if p = "/boot/efi" then .ok .dir
  else .error .notFound

/-- Environment in which every external command succeeds. -/
def envAll : Env := ⟨statStd, fun _ _ => true⟩

/-- Environment in which every external command fails (non-zero exit). -/
def envNoRun : Env := ⟨statStd, fun _ _ => false⟩

/-- Environment in which every stat fails and every command fails. -/
def envNone : Env := ⟨fun _ => .error .notFound, fun _ _ => false⟩

/-- Environment in which exactly the `mount` commands fail. -/
def envMountFails : Env := ⟨statStd, fun _ c => !(c.program == "mount")⟩

/-- Environment in which exactly the plain (flagless) EFI unmount fails. -/
def envEfiUmountFails : Env :=
  ⟨statStd, fun _ c => !(c == ⟨"umount", ["/boot/efi"], false⟩)⟩

/-- A concrete boot configuration. -/
def cfg0 : Boot.Config := ⟨"/dev/sda2", "/boot", ⟨"/dev/sda1", "/boot/efi"⟩⟩

/-- The manager built from `cfg0` (automatic release disabled). -/
def eb0 : EncryptedBoot := EncryptedBoot.from_config cfg0

/-- The manager built from `cfg0` with automatic release enabled. -/
def eb1 : EncryptedBoot := eb0.with_umount_on_drop

/-- A concrete top-level configuration wrapping `cfg0`. -/
def cb0 : Cryptboot := ⟨⟨cfg0, ⟨"x86_64-efi", "GRUB", []⟩⟩⟩

/-! Helper lemmas shared by several results. -/

lemma snd_ite {α β : Type} (b : Bool) (x y : α) (t : β) :
    (if b then (x, t) else (y, t)).2 = t := by
  cases b <;> rfl

/-- The trace left by one `EncryptedBoot.umount` call, whatever the outcomes:
the EFI unmount command always runs, and the later steps follow
`bootUmountThenClose`. -/
lemma umount_unfold (env : Env) (self : EncryptedBoot) (tr : Trace) :
    EncryptedBoot.umount env self tr =
      bootUmountThenClose env self (tr ++ [efiUmountCmd self []]) := by
  unfold EncryptedBoot.umount Efi.umount command.umount runCmd bootUmountThenClose
  rw [snd_ite]
  rfl

/-- `EncryptedBoot.reset` always returns normally, appending exactly its three
commands regardless of how many of them fail. -/
lemma reset_trace (env : Env) (self : EncryptedBoot) (tr : Trace) :
    EncryptedBoot.reset env self tr = tr ++ resetCmds self := by
  unfold EncryptedBoot.reset Efi.umount command.umount command.cryptsetup_close runCmd
  rw [snd_ite, snd_ite, snd_ite]
  simp [resetCmds, efiUmountCmd, bootUmountCmd, closeCmd]

lemma argsHaveFlag_cons_of (a : String) (rest : List String) (fl : Char)
    (h : (isFlagArg a && a.data.contains fl) = true) :
    argsHaveFlag (a :: rest) fl = true := by
  simp only [argsHaveFlag, List.any_cons, Bool.or_eq_true]
  exact Or.inl h

/-- C8: `Device.is_valid` is true exactly when the stat of the resolved path
succeeds and reports a block device; on every stat error (not found,
permission denied, or any other) and on every non-block-device file type it
is false, and it is a total function (it never raises). -/
theorem device_is_valid_iff_block (stat : String → Except StatError FileType) (d : Device) :
    Device.is_valid stat d = true ↔ stat d.full_path = .ok FileType.blockDevice := by
  unfold Device.is_valid
  cases h : stat d.full_path with
  | ok ft => cases ft <;> simp [FileType.is_block_device]
  | error e => simp

/-- C7: the `mount` primitive fails with `InvalidDevice` when the device is
invalid (whatever the mountpoint looks like), otherwise with
`InvalidMountpoint` when the mountpoint is not an existing directory, and in
both those cases runs no external command (the trace is unchanged); otherwise
it runs the external mount command and fails with `CommandFailed` exactly
when that command exits non-zero. -/
theorem command_mount_spec (env : Env) (dev : Device) (mp : String) (tr : Trace) :
    (Device.is_valid env.stat dev = false →
      command.mount env dev mp tr = (.error (.invalidDevice dev), tr))
  ∧ (Device.is_valid env.stat dev = true → is_dir env.stat mp = false →
      command.mount env dev mp tr = (.error (.invalidMountpoint mp), tr))
  ∧ (Device.is_valid env.stat dev = true → is_dir env.stat mp = true →
      env.run tr ⟨"mount", [dev.full_path, mp], false⟩ = false →
      command.mount env dev mp tr =
        (.error (.commandFailed ⟨"mount", [dev.full_path, mp], false⟩),
          tr ++ [⟨"mount", [dev.full_path, mp], false⟩]))
  ∧ (Device.is_valid env.stat dev = true → is_dir env.stat mp = true →
      env.run tr ⟨"mount", [dev.full_path, mp], false⟩ = true →
      command.mount env dev mp tr =
        (.ok (), tr ++ [⟨"mount", [dev.full_path, mp], false⟩])) := by
  refine ⟨fun h1 => ?_, fun h1 h2 => ?_, fun h1 h2 h3 => ?_, fun h1 h2 h3 => ?_⟩
  · simp [command.mount, runCmd, h1]
  · simp [command.mount, runCmd, h1, h2]
  · simp [command.mount, runCmd, h1, h2, h3]
  · simp [command.mount, runCmd, h1, h2, h3]

/-- Witness for C7 at a concrete environment and device: the success branch. -/
theorem command_mount_spec_witness :
    Device.is_valid envAll.stat (Device.Path "/dev/sda1") = true
  ∧ is_dir envAll.stat "/boot/efi" = true
  ∧ envAll.run [] ⟨"mount", ["/dev/sda1", "/boot/efi"], false⟩ = true
  ∧ command.mount envAll (Device.Path "/dev/sda1") "/boot/efi" [] =
      (.ok (), [⟨"mount", ["/dev/sda1", "/boot/efi"], false⟩]) :=
  ⟨by decide, by decide, rfl,
    (command_mount_spec envAll (Device.Path "/dev/sda1") "/boot/efi" []).2.2.2
      (by decide) (by decide) rfl⟩

/-- C5: `EncryptedBoot.reset` is infallible by construction: its result type
carries no error channel, and for every environment — hence for every
combination of sub-step failures, including all three failing — it returns
normally, having attempted all three of its steps. -/
theorem reset_never_fails (env : Env) (self : EncryptedBoot) (tr : Trace) :
    ∃ ext : Trace, EncryptedBoot.reset env self tr = tr ++ ext ∧ ext.length = 3 :=
  ⟨resetCmds self, reset_trace env self tr, rfl⟩

/-- C6 counterexample: at a concrete configuration and environment, the EFI
unmount and the boot unmount issued by `EncryptedBoot.reset` carry the
argument `-qR` — quiet and recursive — and no forceful flag at all, refuting
the claim that reset invokes them with forceful flags. -/
theorem reset_flags_counterexample :
    EncryptedBoot.reset envAll eb0 [] =
      [⟨"umount", ["-qR", "/boot/efi"], false⟩,
       ⟨"umount", ["-qR", "/boot"], false⟩,
       ⟨"cryptsetup", ["close", "cryptboot-boot"], true⟩]
  ∧ argsHaveFlag ["-qR", "/boot/efi"] 'f' = false
  ∧ argsHaveFlag ["-qR", "/boot"] 'f' = false := by
  refine ⟨by decide, by decide, by decide⟩

/-- C6 (amended): `EncryptedBoot.reset` performs the same three steps as
`EncryptedBoot.umount` with every error ignored, in order: the EFI unmount
with quiet+recursive flags (`-qR`), the boot-mountpoint unmount with
quiet+recursive flags (`-qR`), and the mapper release with `silent = true`. -/
theorem reset_steps_and_flags (env : Env) (self : EncryptedBoot) (tr : Trace) :
    EncryptedBoot.reset env self tr =
      tr ++ [efiUmountCmd self ["-qR"], bootUmountCmd self ["-qR"], closeCmd true]
  ∧ argsHaveFlag (efiUmountCmd self ["-qR"]).args 'q' = true
  ∧ argsHaveFlag (efiUmountCmd self ["-qR"]).args 'R' = true
  ∧ argsHaveFlag (bootUmountCmd self ["-qR"]).args 'q' = true
  ∧ argsHaveFlag (bootUmountCmd self ["-qR"]).args 'R' = true
  ∧ (closeCmd true).silent = true :=
  ⟨reset_trace env self tr,
    argsHaveFlag_cons_of _ _ _ (by decide),
    argsHaveFlag_cons_of _ _ _ (by decide),
    argsHaveFlag_cons_of _ _ _ (by decide),
    argsHaveFlag_cons_of _ _ _ (by decide),
    rfl⟩

/-- C3: the first step of `EncryptedBoot.umount` is the EFI unmount with no
flag arguments (the command is `umount <efi-mountpoint>`), and its error is
ignored: in every run in which that command fails, `umount` still proceeds to
the recursive boot unmount and the mapper release, and its result is exactly
what those later steps return. -/
theorem umount_ignores_efi_failure (env : Env) (self : EncryptedBoot) (tr : Trace)
    (h : env.run tr (efiUmountCmd self []) = false) :
    EncryptedBoot.umount env self tr =
      bootUmountThenClose env self (tr ++ [efiUmountCmd self []]) :=
  umount_unfold env self tr

/-- Witness for C3: in `envEfiUmountFails` the plain EFI unmount fails, yet
`umount` completes the boot unmount and the mapper release successfully. -/
theorem umount_ignores_efi_failure_witness :
    envEfiUmountFails.run [] (efiUmountCmd eb0 []) = false
  ∧ EncryptedBoot.umount envEfiUmountFails eb0 [] =
      bootUmountThenClose envEfiUmountFails eb0 [efiUmountCmd eb0 []]
  ∧ EncryptedBoot.umount envEfiUmountFails eb0 [] =
      (.ok (), [⟨"umount", ["/boot/efi"], false⟩,
                ⟨"umount", ["-R", "/boot"], false⟩,
                ⟨"cryptsetup", ["close", "cryptboot-boot"], false⟩]) :=
  ⟨by decide, umount_ignores_efi_failure envEfiUmountFails eb0 [] (by decide), rfl⟩

/-- C4: if the recursive boot unmount inside `EncryptedBoot.umount` fails,
`umount` returns that command's `CommandFailed` error, and the final trace
shows that no `cryptsetup close` was attempted: only the EFI unmount and the
failing boot unmount ran. -/
theorem umount_boot_failure_no_release (env : Env) (self : EncryptedBoot) (tr : Trace)
    (h : env.run (tr ++ [efiUmountCmd self []]) (bootUmountCmd self ["-R"]) = false) :
    EncryptedBoot.umount env self tr =
      (.error (.commandFailed (bootUmountCmd self ["-R"])),
        tr ++ [efiUmountCmd self [], bootUmountCmd self ["-R"]]) := by
  rw [umount_unfold]
  simp only [bootUmountThenClose, command.umount, runCmd, bootUmountCmd, efiUmountCmd,
    List.cons_append, List.nil_append] at h ⊢
  simp [h]

/-- Witness for C4: with every command failing, `umount` stops at the failing
boot unmount; the recorded trace contains no `cryptsetup` command. -/
theorem umount_boot_failure_no_release_witness :
    envNoRun.run [efiUmountCmd eb0 []] (bootUmountCmd eb0 ["-R"]) = false
  ∧ EncryptedBoot.umount envNoRun eb0 [] =
      (.error (.commandFailed (bootUmountCmd eb0 ["-R"])),
        [efiUmountCmd eb0 [], bootUmountCmd eb0 ["-R"]]) :=
  ⟨by decide, umount_boot_failure_no_release envNoRun eb0 [] (by decide)⟩

/-- C9: when automatic release is enabled and the `umount` performed by the
drop handler returns an error, the drop handler panics (the `unwrap()` in
`impl Drop for EncryptedBoot`): the error is never delivered to the caller. -/
theorem drop_unwrap_panics (env : Env) (self : EncryptedBoot) (tr : Trace) (e : Err)
    (h1 : self.umount_on_drop = true)
    (h2 : (EncryptedBoot.umount env self tr).1 = .error e) :
    EncryptedBoot.drop env self tr = .panicked (EncryptedBoot.umount env self tr).2 := by
  unfold EncryptedBoot.drop
  rw [h1]
  cases h3 : EncryptedBoot.umount env self tr with
  | mk fst snd =>
    rw [h3] at h2
    cases fst <;> simp_all

/-- Witness for C9: with every command failing, the drop of a manager with
automatic release panics after the failed unmount. -/
theorem drop_unwrap_panics_witness :
    eb1.umount_on_drop = true
  ∧ (EncryptedBoot.umount envNoRun eb1 []).1 =
      .error (.commandFailed ⟨"umount", ["-R", "/boot"], false⟩)
  ∧ EncryptedBoot.drop envNoRun eb1 [] =
      .panicked (EncryptedBoot.umount envNoRun eb1 []).2 :=
  ⟨rfl, rfl,
    drop_unwrap_panics envNoRun eb1 []
      (.commandFailed ⟨"umount", ["-R", "/boot"], false⟩) rfl rfl⟩

/-- C2: for a scope owning an `EncryptedBoot`, whatever the body does —
including returning an error early — the body's result reaches the caller
unchanged, and at scope exit: with automatic release enabled the final trace
is the body's trace extended by exactly one `EncryptedBoot.umount` call,
while with automatic release disabled the drop performs nothing (the trace
is the body's trace, unchanged, and no panic is possible). -/
theorem scope_exit_release (α : Type) (env : Env) (self : EncryptedBoot)
    (body : Trace → Except Err α × Trace) (tr : Trace) :
    (withScope env self body tr).1 = (body tr).1
  ∧ (self.umount_on_drop = true →
      (withScope env self body tr).2.trace = (EncryptedBoot.umount env self (body tr).2).2)
  ∧ (self.umount_on_drop = false →
      (withScope env self body tr).2 = DropOutcome.ok (body tr).2) := by
  refine ⟨?_, fun h => ?_, fun h => ?_⟩
  · cases h1 : body tr with
    | mk res tr1 => simp [withScope, h1]
  · cases h1 : body tr with
    | mk res tr1 =>
      simp only [withScope, h1, EncryptedBoot.drop, h, if_true]
      cases h2 : EncryptedBoot.umount env self tr1 with
      | mk fst snd => cases fst <;> simp [DropOutcome.trace]
  · cases h1 : body tr with
    | mk res tr1 => simp [withScope, h1, EncryptedBoot.drop, h]

/-- Witness for C2: a body that returns an error early, against a manager
with automatic release: the unmount still happens at scope exit; and the same
body against a manager without automatic release: nothing happens at scope
exit. -/
theorem scope_exit_release_witness :
    eb1.umount_on_drop = true
  ∧ (withScope envAll eb1
        (fun t => ((.error (.commandFailed ⟨"work", [], false⟩) : Except Err Unit), t))
        []).2.trace = (EncryptedBoot.umount envAll eb1 []).2
  ∧ eb0.umount_on_drop = false
  ∧ (withScope envAll eb0
        (fun t => ((.error (.commandFailed ⟨"work", [], false⟩) : Except Err Unit), t))
        []).2 = DropOutcome.ok [] :=
  ⟨rfl,
    (scope_exit_release Unit envAll eb1
      (fun t => (.error (.commandFailed ⟨"work", [], false⟩), t)) []).2.1 rfl,
    rfl,
    (scope_exit_release Unit envAll eb0
      (fun t => (.error (.commandFailed ⟨"work", [], false⟩), t)) []).2.2 rfl⟩

/-- C10: `Cryptboot.mount` unconditionally performs the three best-effort
reset commands before the lifecycle manager's mount begins: its trace is the
trace of `EncryptedBoot.mount` started from `tr ++ resetCmds`, and its result
is that mount's result (carrying the manager on success). -/
theorem cryptboot_mount_reset_first (env : Env) (self : Cryptboot) (tr : Trace) :
    (Cryptboot.mount env self tr).2 =
      (EncryptedBoot.mount env (EncryptedBoot.from_config self.config.boot)
        (tr ++ resetCmds (EncryptedBoot.from_config self.config.boot))).2
  ∧ (Cryptboot.mount env self tr).1 =
      ((EncryptedBoot.mount env (EncryptedBoot.from_config self.config.boot)
        (tr ++ resetCmds (EncryptedBoot.from_config self.config.boot))).1).map
        (fun _ => EncryptedBoot.from_config self.config.boot) := by
  simp only [Cryptboot.mount, reset_trace]
  cases h : EncryptedBoot.mount env (EncryptedBoot.from_config self.config.boot)
      (tr ++ resetCmds (EncryptedBoot.from_config self.config.boot)) with
  | mk fst snd => cases fst <;> simp [Except.map]

/-- C1: `EncryptedBoot.mount` performs exactly its three steps in order —
unlock (`cryptsetup open`), boot mount, EFI mount — and for every way a step
can fail it returns that step's error immediately, with the final trace
showing exactly the commands of the completed earlier work and nothing else:
no later step runs and no cleanup or unwinding command is ever issued, so
after a failure at step `k` exactly the effects of the steps before `k`
remain in place. -/
theorem encryptedBoot_mount_three_steps (env : Env) (self : EncryptedBoot) (tr : Trace) :
    (Device.is_valid env.stat (Device.Path self.config.device) = false →
      EncryptedBoot.mount env self tr =
        (.error (.invalidDevice (Device.Path self.config.device)), tr))
  ∧ (Device.is_valid env.stat (Device.Path self.config.device) = true →
      env.run tr (openCmd self) = false →
      EncryptedBoot.mount env self tr =
        (.error (.commandFailed (openCmd self)), tr ++ [openCmd self]))
  ∧ (Device.is_valid env.stat (Device.Path self.config.device) = true →
      env.run tr (openCmd self) = true →
      Device.is_valid env.stat (Device.Mapper self.name) = false →
      EncryptedBoot.mount env self tr =
        (.error (.invalidDevice (Device.Mapper self.name)), tr ++ [openCmd self]))
  ∧ (Device.is_valid env.stat (Device.Path self.config.device) = true →
      env.run tr (openCmd self) = true →
      Device.is_valid env.stat (Device.Mapper self.name) = true →
      is_dir env.stat self.config.mountpoint = false →
      EncryptedBoot.mount env self tr =
        (.error (.invalidMountpoint self.config.mountpoint), tr ++ [openCmd self]))
  ∧ (Device.is_valid env.stat (Device.Path self.config.device) = true →
      env.run tr (openCmd self) = true →
      Device.is_valid env.stat (Device.Mapper self.name) = true →
      is_dir env.stat self.config.mountpoint = true →
      env.run (tr ++ [openCmd self]) (bootMountCmd self) = false →
      EncryptedBoot.mount env self tr =
        (.error (.commandFailed (bootMountCmd self)),
          tr ++ [openCmd self, bootMountCmd self]))
  ∧ (Device.is_valid env.stat (Device.Path self.config.device) = true →
      env.run tr (openCmd self) = true →
      Device.is_valid env.stat (Device.Mapper self.name) = true →
      is_dir env.stat self.config.mountpoint = true →
      env.run (tr ++ [openCmd self]) (bootMountCmd self) = true →
      Device.is_valid env.stat (Device.Path self.config.efi.device) = false →
      EncryptedBoot.mount env self tr =
        (.error (.invalidDevice (Device.Path self.config.efi.device)),
          tr ++ [openCmd self, bootMountCmd self]))
  ∧ (Device.is_valid env.stat (Device.Path self.config.device) = true →
      env.run tr (openCmd self) = true →
      Device.is_valid env.stat (Device.Mapper self.name) = true →
      is_dir env.stat self.config.mountpoint = true →
      env.run (tr ++ [openCmd self]) (bootMountCmd self) = true →
      Device.is_valid env.stat (Device.Path self.config.efi.device) = true →
      is_dir env.stat self.config.efi.mountpoint = false →
      EncryptedBoot.mount env self tr =
        (.error (.invalidMountpoint self.config.efi.mountpoint),
          tr ++ [openCmd self, bootMountCmd self]))
  ∧ (Device.is_valid env.stat (Device.Path self.config.device) = true →
      env.run tr (openCmd self) = true →
      Device.is_valid env.stat (Device.Mapper self.name) = true →
      is_dir env.stat self.config.mountpoint = true →
      env.run (tr ++ [openCmd self]) (bootMountCmd self) = true →
      Device.is_valid env.stat (Device.Path self.config.efi.device) = true →
      is_dir env.stat self.config.efi.mountpoint = true →
      env.run (tr ++ [openCmd self, bootMountCmd self]) (efiMountCmd self) = false →
      EncryptedBoot.mount env self tr =
        (.error (.commandFailed (efiMountCmd self)),
          tr ++ [openCmd self, bootMountCmd self, efiMountCmd self]))
  ∧ (Device.is_valid env.stat (Device.Path self.config.device) = true →
      env.run tr (openCmd self) = true →
      Device.is_valid env.stat (Device.Mapper self.name) = true →
      is_dir env.stat self.config.mountpoint = true →
      env.run (tr ++ [openCmd self]) (bootMountCmd self) = true →
      Device.is_valid env.stat (Device.Path self.config.efi.device) = true →
      is_dir env.stat self.config.efi.mountpoint = true →
      env.run (tr ++ [openCmd self, bootMountCmd self]) (efiMountCmd self) = true →
      EncryptedBoot.mount env self tr =
        (.ok (), tr ++ [openCmd self, bootMountCmd self, efiMountCmd self])) := by
  refine ⟨fun h1 => ?_, fun h1 h2 => ?_, fun h1 h2 h3 => ?_, fun h1 h2 h3 h4 => ?_,
    fun h1 h2 h3 h4 h5 => ?_, fun h1 h2 h3 h4 h5 h6 => ?_, fun h1 h2 h3 h4 h5 h6 h7 => ?_,
    fun h1 h2 h3 h4 h5 h6 h7 h8 => ?_, fun h1 h2 h3 h4 h5 h6 h7 h8 => ?_⟩ <;>
  · simp only [openCmd, bootMountCmd, efiMountCmd, List.cons_append, List.nil_append,
      List.append_assoc] at *
    simp_all [EncryptedBoot.mount, command.cryptsetup_open, command.mount, Efi.mount,
      runCmd]

/-- Witness for C1: unlock succeeds but the boot mount command fails; mount
stops there with that step's error, the device is left unlocked (the
`cryptsetup open` stays in the trace with nothing undoing it) and the EFI
step never runs. -/
theorem encryptedBoot_mount_three_steps_witness :
    Device.is_valid envMountFails.stat (Device.Path eb0.config.device) = true
  ∧ envMountFails.run [] (openCmd eb0) = true
  ∧ Device.is_valid envMountFails.stat (Device.Mapper eb0.name) = true
  ∧ is_dir envMountFails.stat eb0.config.mountpoint = true
  ∧ envMountFails.run ([] ++ [openCmd eb0]) (bootMountCmd eb0) = false
  ∧ EncryptedBoot.mount envMountFails eb0 [] =
      (.error (.commandFailed (bootMountCmd eb0)),
        [] ++ [openCmd eb0, bootMountCmd eb0]) :=
  ⟨by decide, by decide, by decide, by decide, by decide,
    (encryptedBoot_mount_three_steps envMountFails eb0 []).2.2.2.2.1
      (by decide) (by decide) (by decide) (by decide) (by decide)⟩
